import Mathlib

/-!
Shallow embedding of the `believer` repository's core
(`src/parity_check_matrix.rs` and `src/generators/best_code_finder.rs`).

Conventions of the embedding:
* Rust `Vec<usize>` becomes `List ℕ`; `usize` arithmetic here only increments
  counters, so `ℕ` is faithful (no overflow is reachable in the claims).
* Rust tuple field `x.0` is Lean `x.1` and Rust `x.1` is Lean `x.2`.
* A Rust operation that can panic is modelled with the `Panics` wrapper; a
  Rust `panic!` used as input validation is modelled by `Except String`.
* External capabilities of the crate that live outside the two source files
  (the `GF2` field, `SimulationResult`, the code generator, the decoder and
  the ChaCha PRNG) are modelled from the spec, as marked on each definition.
-/

/-- Modelled from the spec: the two-element field `GF2` (external to the two
source files). Glossary: value in \x7b0,1\x7d, addition is XOR. -/
inductive GF2 where
  | B0 : GF2
  | B1 : GF2
deriving DecidableEq, Repr

/-- Modelled from the spec: field addition on `GF2` is XOR. -/
def GF2.add : GF2 → GF2 → GF2
  | GF2.B0, b => b
  | GF2.B1, GF2.B0 => GF2.B1
  | GF2.B1, GF2.B1 => GF2.B0

instance : Add GF2 := ⟨GF2.add⟩

/-- The sparse parity-check matrix of `src/parity_check_matrix.rs`:
`row_ranges` and `column_indices` as in the Rust struct. -/
structure ParityCheckMatrix where
  row_ranges : List ℕ
  column_indices : List ℕ
deriving DecidableEq, Repr

/-- Rust `row_ranges.push(*row_ranges.last().unwrap_or(&0) + row_lenght)` of
`ParityCheckMatrix::new`. -/
def pushLast (rr : List ℕ) (row_lenght : ℕ) : List ℕ :=
  rr ++ [(rr.getLast?.getD 0) + row_lenght]

/-- The `while active_row < row` loop of `ParityCheckMatrix::new`: it runs
`row - active_row` times (zero times when `active_row ≥ row`), each time
pushing `last + row_lenght` onto `row_ranges`. The first argument is the
iteration count `row - active_row`. -/
def padRows : ℕ → List ℕ → ℕ → List ℕ
  | 0, rr, _ => rr
  | k + 1, rr, row_lenght => padRows k (pushLast rr row_lenght) row_lenght

/-- The loop state of `ParityCheckMatrix::new`. -/
structure BuildState where
  column_indices : List ℕ
  row_ranges : List ℕ
  active_row : ℕ
  row_lenght : ℕ

/-- One iteration of the `for (row, col) in positions` loop of
`ParityCheckMatrix::new`. -/
def buildStep (s : BuildState) (p : ℕ × ℕ) : BuildState :=
  if p.1 = s.active_row then
    { s with
      row_lenght := s.row_lenght + 1
      column_indices := s.column_indices ++ [p.2] }
  else
    { column_indices := s.column_indices ++ [p.2]
      row_ranges := padRows (p.1 - s.active_row) s.row_ranges s.row_lenght
      active_row := max s.active_row p.1
      row_lenght := 1 }

/-- Rust `ParityCheckMatrix::new`: fold the loop over the positions starting from
`column_indices = []`, `row_ranges = [0]`, `active_row = 0`, `row_lenght = 0`,
then close the final range. -/
def ParityCheckMatrix.new (positions : List (ℕ × ℕ)) : ParityCheckMatrix :=
  let s := positions.foldl buildStep ⟨[], [0], 0, 0⟩
  { row_ranges := pushLast s.row_ranges s.row_lenght
    column_indices := s.column_indices }

/-- Result of a Rust computation that may panic. -/
inductive Panics (α : Type) where
  | ok : α → Panics α
  | panicked : Panics α
deriving DecidableEq, Repr

/-- Rust slice indexing `&l[a..b]` : panics unless `a ≤ b ∧ b ≤ l.length`,
otherwise yields the elements at indices `[a, b)`. -/
def rustIndexRange (l : List ℕ) (a b : ℕ) : Panics (List ℕ) :=
  if a ≤ b ∧ b ≤ l.length then Panics.ok ((l.drop a).take (b - a))
  else Panics.panicked

/-- Rust `ParityCheckMatrix::row_slice`: `row_ranges.get(row).and_then(|start|
row_ranges.get(row+1).map(|end| Slice { positions: &column_indices[start..end] }))`.
The slice is identified with its list of positions. -/
def ParityCheckMatrix.row_slice (m : ParityCheckMatrix) (row : ℕ) :
    Panics (Option (List ℕ)) :=
  match m.row_ranges.get? row, m.row_ranges.get? (row + 1) with
  | some row_start, some row_end =>
    match rustIndexRange m.column_indices row_start row_end with
    | Panics.ok sl => Panics.ok (some sl)
    | Panics.panicked => Panics.panicked
  | _, _ => Panics.ok none

/-- Rust `Slice::dot`: fold over the slice's positions, adding `other[pos]` into
the total when `other.get(pos)` is `Some` and skipping it otherwise. -/
def Slice.dot (positions : List ℕ) (other : List GF2) : GF2 :=
  positions.foldl
    (fun total pos =>
      match other.get? pos with
      | some value => total + value
      | none => total)
    GF2.B0

/-- Modelled from the spec: `SimulationResult` (external to the two source
files) is opaque, totally ordered from worst to best by `is_better_than`,
with a constructible worst-case sentinel. It is modelled as a natural
number, larger meaning strictly better. -/
abbrev SimulationResult := ℕ

/-- Modelled from the spec: the strict preference comparison of
`SimulationResult`; `a.is_better_than b` holds when `a` is strictly better. -/
def SimulationResult.is_better_than (a b : SimulationResult) : Bool :=
  decide (b < a)

/-- Modelled from the spec: the worst-case sentinel of `SimulationResult`;
no result is worse. -/
def SimulationResult.worse_result : SimulationResult := 0

/-- The `CodeAndResult` alias of `best_code_finder.rs`. -/
abbrev CodeAndResult := Option ParityCheckMatrix × SimulationResult

/-- Modelled from the spec: `ChaCha8Rng` (external crate) is a deterministic
pseudo-random source entirely determined by its 64-bit seed; it is modelled
by the seed that created it together with the decoder and generator draws
already consumed from it. Seeds are `u64`; the claims never exercise
overflow, so `ℕ` is used. -/
structure ChaCha8Rng where
  seed : ℕ
deriving DecidableEq, Repr

/-- Rust `ChaCha8Rng::seed_from_u64` (external crate, deterministic in the seed). -/
def ChaCha8Rng.seed_from_u64 (s : ℕ) : ChaCha8Rng := ⟨s⟩

/-- The caller-supplied random source `R : Rng`: a stream of upcoming `u64`
outputs together with the position of the next draw. -/
structure CallerRng where
  stream : ℕ → ℕ
  pos : ℕ

/-- One sequential `u64` draw from the caller's source. -/
def CallerRng.next (r : CallerRng) : ℕ × CallerRng :=
  (r.stream r.pos, ⟨r.stream, r.pos + 1⟩)

/-- Rust `rng.sample_iter(Standard).take(n).collect()`: draw `n` seeds
sequentially from the caller's source, in order. -/
def sample_iter_take : ℕ → CallerRng → List ℕ × CallerRng
  | 0, r => ([], r)
  | n + 1, r =>
    let (x, r') := r.next
    let (xs, r'') := sample_iter_take n r'
    (x :: xs, r'')

/-- A Rust `f64` as used by `with_erasure_prob`: either NaN or a numeric
value (the reachable numeric values, among them `0.0`, `0.5` and `1.0`, are
rationals; IEEE comparisons on them agree with the rational order, and every
comparison with NaN is false). -/
inductive F64 where
  | nan : F64
  | num : ℚ → F64
deriving DecidableEq

/-- IEEE `<` on `f64`: false whenever either side is NaN. -/
def F64.lt : F64 → F64 → Bool
  | F64.num a, F64.num b => decide (a < b)
  | _, _ => false

/-- IEEE `>` on `f64`: false whenever either side is NaN. -/
def F64.gt : F64 → F64 → Bool
  | F64.num a, F64.num b => decide (b < a)
  | _, _ => false

/-- Whether an `f64` value lies inside the interval [0,1]; NaN does not. -/
def F64.in_unit_interval : F64 → Bool
  | F64.nan => false
  | F64.num q => decide (0 ≤ q ∧ q ≤ 1)

/-- The configuration fields of `BestCodeFinderUsingErasure`; the code
generator it references is external and is passed separately to the search
functions as the abstract `generate` capability. -/
structure BestCodeFinderUsingErasure where
  erasure_prob : F64
  n_codes_to_try : ℕ
deriving DecidableEq

/-- Rust `BestCodeFinderUsingErasure::from_code_generator`: defaults
`erasure_prob = 0.5`, `n_codes_to_try = 0`. -/
def BestCodeFinderUsingErasure.from_code_generator : BestCodeFinderUsingErasure :=
  { erasure_prob := F64.num (1 / 2), n_codes_to_try := 0 }

/-- Rust `BestCodeFinderUsingErasure::among_n_codes`. -/
def BestCodeFinderUsingErasure.among_n_codes
    (finder : BestCodeFinderUsingErasure) (n_codes : ℕ) : BestCodeFinderUsingErasure :=
  { finder with n_codes_to_try := n_codes }

/-- Rust `BestCodeFinderUsingErasure::with_erasure_prob`:
`if prob < 0.0 || prob > 1.0 { panic!("prob is not between 0 and 1") }`.
The panic is modelled as the invalid-argument error value. -/
def BestCodeFinderUsingErasure.with_erasure_prob
    (finder : BestCodeFinderUsingErasure) (prob : F64) :
    Except String BestCodeFinderUsingErasure :=
  if F64.lt prob (F64.num 0) || F64.gt prob (F64.num 1) then
    Except.error "prob is not between 0 and 1"
  else
    Except.ok { finder with erasure_prob := prob }

/-- Rust `simulate_one_code_with_rng` (shared shape of both finder structs):
generate one code from the sub-source, bind a decoder to it, simulate with
the same sub-source, and return `(Some(decoder.take_code()), result)`.
The external generator and decoder are the abstract parameters `generate`
(which advances the sub-source) and `simulate`. -/
def simulate_one_code_with_rng
    (generate : ChaCha8Rng → ParityCheckMatrix × ChaCha8Rng)
    (simulate : ParityCheckMatrix → ChaCha8Rng → SimulationResult)
    (rng : ChaCha8Rng) : CodeAndResult :=
  let (code, rng') := generate rng
  let result := simulate code rng'
  (some code, result)

namespace NIterationsBestCodeFinderUsingErasure

/-- Rust `NIterationsBestCodeFinderUsingErasure::get_best_between`:
`if first.1.is_better_than(&second.1) { first } else { second }`. -/
def get_best_between (first second : CodeAndResult) : CodeAndResult :=
  if SimulationResult.is_better_than first.2 second.2 then first else second

/-- Rust `NIterationsBestCodeFinderUsingErasure::initialize_random_seeds_with_rng`
(the leading letters of the Rust name are elided): draw one seed per
candidate, sequentially, from the caller's source. -/
def ialize_random_seeds_with_rng (n_codes_to_try : ℕ) (rng : CallerRng) :
    List ℕ × CallerRng :=
  sample_iter_take n_codes_to_try rng

/-- Rust `NIterationsBestCodeFinderUsingErasure::get_rng_for`:
`ChaCha8Rng::seed_from_u64(self.random_seeds[index])`. -/
def get_rng_for (random_seeds : List ℕ) (index : ℕ) : ChaCha8Rng :=
  ChaCha8Rng.seed_from_u64 (random_seeds.getD index 0)

/-- Rust `NIterationsBestCodeFinderUsingErasure::find_with_rng`: draw the seeds,
evaluate each candidate index with the sub-source derived from its seed, and
reduce with `get_best_between` from the identity pair
`(None, SimulationResult::worse_result())`. The parallel `reduce` is embedded
by its in-index-order sequential semantics; the external generator/decoder
pipeline per candidate is the parameters of `simulate_one_code_with_rng`.
The returned `CallerRng` is the caller's source after the draws. -/
def find_with_rng (n_codes_to_try : ℕ)
    (generate : ChaCha8Rng → ParityCheckMatrix × ChaCha8Rng)
    (simulate : ParityCheckMatrix → ChaCha8Rng → SimulationResult)
    (rng : CallerRng) : CodeAndResult × CallerRng :=
  let (random_seeds, rng') := ialize_random_seeds_with_rng n_codes_to_try rng
  let results := (List.range n_codes_to_try).map fun code_index =>
    simulate_one_code_with_rng generate simulate (get_rng_for random_seeds code_index)
  (results.foldl get_best_between (none, SimulationResult.worse_result), rng')

end NIterationsBestCodeFinderUsingErasure

namespace NEventsBestCodeFinderUsingErasure

/-- Rust `NEventsBestCodeFinderUsingErasure::get_best_between` (textually the same
body as the n-iterations variant). -/
def get_best_between (first second : CodeAndResult) : CodeAndResult :=
  if SimulationResult.is_better_than first.2 second.2 then first else second

/-- Rust `NEventsBestCodeFinderUsingErasure::find_with_rng` (textually the same
orchestration as the n-iterations variant; only the external stopping policy
inside `simulate` differs). -/
def find_with_rng (n_codes_to_try : ℕ)
    (generate : ChaCha8Rng → ParityCheckMatrix × ChaCha8Rng)
    (simulate : ParityCheckMatrix → ChaCha8Rng → SimulationResult)
    (rng : CallerRng) : CodeAndResult × CallerRng :=
  let (random_seeds, rng') := sample_iter_take n_codes_to_try rng
  let results := (List.range n_codes_to_try).map fun code_index =>
    simulate_one_code_with_rng generate simulate
      (ChaCha8Rng.seed_from_u64 (random_seeds.getD code_index 0))
  (results.foldl get_best_between (none, SimulationResult.worse_result), rng')

end NEventsBestCodeFinderUsingErasure

/-- A concrete external generator used to instantiate universally quantified
theorems about the search: it returns the empty matrix and leaves the
sub-source unchanged. -/
def constGenerate : ChaCha8Rng → ParityCheckMatrix × ChaCha8Rng :=
  fun rng => (ParityCheckMatrix.new [], rng)

/-- A concrete external decoder-simulation used to instantiate universally
quantified theorems about the search: it always reports result 0. -/
def constSimulate : ParityCheckMatrix → ChaCha8Rng → SimulationResult :=
  fun _ _ => 0

/-- A concrete caller-supplied random source: the all-zero stream at
position 0. -/
def zeroRng : CallerRng := ⟨fun _ => 0, 0⟩


/-! ### Helper lemmas about the matrix construction -/

theorem buildStep_column_indices (s : BuildState) (p : ℕ × ℕ) :
    (buildStep s p).column_indices = s.column_indices ++ [p.2] := by
  unfold buildStep
  split <;> rfl

theorem foldl_buildStep_column_indices (ps : List (ℕ × ℕ)) :
    ∀ s : BuildState,
      (ps.foldl buildStep s).column_indices = s.column_indices ++ ps.map Prod.snd := by
  induction ps with
  | nil => intro s; simp
  | cons p ps ih =>
    intro s
    simp only [List.foldl_cons, List.map_cons]
    rw [ih, buildStep_column_indices]
    simp

theorem dot_foldl_filterMap (v : List GF2) (ps : List ℕ) :
    ∀ total : GF2,
      ps.foldl
          (fun total pos =>
            match v.get? pos with
            | some value => total + value
            | none => total)
          total
        = (ps.filterMap fun p => v.get? p).foldl GF2.add total := by
  induction ps with
  | nil => intro total; simp
  | cons p ps ih =>
    intro total
    simp only [List.foldl_cons, List.filterMap_cons]
    cases h : v.get? p with
    | none =>
      simp only [h]
      exact ih total
    | some value =>
      simp only [h, List.foldl_cons]
      exact ih (total + value)

/-! ### Helper lemmas about the combine and the reduction -/

theorem is_better_than_true_iff (a b : SimulationResult) :
    SimulationResult.is_better_than a b = true ↔ b < a := by
  simp [SimulationResult.is_better_than]

theorem nev_get_best_between_eq :
    NEventsBestCodeFinderUsingErasure.get_best_between =
      NIterationsBestCodeFinderUsingErasure.get_best_between := rfl

theorem get_best_between_pos (first second : CodeAndResult) (h : second.2 < first.2) :
    NIterationsBestCodeFinderUsingErasure.get_best_between first second = first := by
  unfold NIterationsBestCodeFinderUsingErasure.get_best_between
  rw [if_pos ((is_better_than_true_iff first.2 second.2).mpr h)]

theorem get_best_between_neg (first second : CodeAndResult) (h : ¬ second.2 < first.2) :
    NIterationsBestCodeFinderUsingErasure.get_best_between first second = second := by
  unfold NIterationsBestCodeFinderUsingErasure.get_best_between
  rw [if_neg]
  intro hc
  exact h ((is_better_than_true_iff first.2 second.2).mp hc)

theorem get_best_between_cases (first second : CodeAndResult) :
    NIterationsBestCodeFinderUsingErasure.get_best_between first second = first ∨
      NIterationsBestCodeFinderUsingErasure.get_best_between first second = second := by
  unfold NIterationsBestCodeFinderUsingErasure.get_best_between
  split
  · exact Or.inl rfl
  · exact Or.inr rfl

theorem get_best_between_assoc (a b c : CodeAndResult) :
    NIterationsBestCodeFinderUsingErasure.get_best_between
        (NIterationsBestCodeFinderUsingErasure.get_best_between a b) c =
      NIterationsBestCodeFinderUsingErasure.get_best_between a
        (NIterationsBestCodeFinderUsingErasure.get_best_between b c) := by
  rcases Nat.lt_or_ge b.2 a.2 with hab | hab
  · rw [get_best_between_pos a b hab]
    rcases Nat.lt_or_ge c.2 b.2 with hbc | hbc
    · rw [get_best_between_pos b c hbc, get_best_between_pos a b hab,
        get_best_between_pos a c (Nat.lt_trans hbc hab)]
    · rw [get_best_between_neg b c (Nat.not_lt.mpr hbc)]
  · rw [get_best_between_neg a b (Nat.not_lt.mpr hab)]
    rcases Nat.lt_or_ge c.2 b.2 with hbc | hbc
    · rw [get_best_between_pos b c hbc, get_best_between_neg a b (Nat.not_lt.mpr hab)]
    · rw [get_best_between_neg b c (Nat.not_lt.mpr hbc),
        get_best_between_neg a c (Nat.not_lt.mpr (Nat.le_trans hab hbc))]

theorem get_best_between_left_id (x : CodeAndResult) :
    NIterationsBestCodeFinderUsingErasure.get_best_between
        (none, SimulationResult.worse_result) x = x := by
  exact get_best_between_neg _ x (Nat.not_lt.mpr (Nat.zero_le x.2))

theorem simulate_one_code_isSome
    (generate : ChaCha8Rng → ParityCheckMatrix × ChaCha8Rng)
    (simulate : ParityCheckMatrix → ChaCha8Rng → SimulationResult)
    (rng : ChaCha8Rng) :
    (simulate_one_code_with_rng generate simulate rng).1.isSome = true := by
  unfold simulate_one_code_with_rng
  rcases generate rng with ⟨code, rng2⟩
  rfl

theorem foldl_get_best_between_isSome (l : List CodeAndResult) :
    ∀ acc : CodeAndResult, acc.1.isSome = true → (∀ x ∈ l, x.1.isSome = true) →
      (l.foldl NIterationsBestCodeFinderUsingErasure.get_best_between acc).1.isSome = true := by
  induction l with
  | nil => intro acc hacc _; exact hacc
  | cons x l ih =>
    intro acc hacc hl
    rw [List.foldl_cons]
    have hx : x.1.isSome = true := hl x (List.mem_cons_self x l)
    have hstep :
        (NIterationsBestCodeFinderUsingErasure.get_best_between acc x).1.isSome = true := by
      rcases get_best_between_cases acc x with h | h
      · rw [h]; exact hacc
      · rw [h]; exact hx
    exact ih _ hstep (fun y hy => hl y (List.mem_cons_of_mem x hy))

theorem sample_iter_take_eq (n : ℕ) :
    ∀ r : CallerRng,
      sample_iter_take n r =
        (((List.range n).map fun i => r.stream (r.pos + i)), ⟨r.stream, r.pos + n⟩) := by
  induction n with
  | zero =>
    intro r
    simp [sample_iter_take]
  | succ n ih =>
    intro r
    rw [sample_iter_take]
    simp only [CallerRng.next]
    rw [ih ⟨r.stream, r.pos + 1⟩]
    simp only [List.range_succ_eq_map, List.map_cons, List.map_map]
    have hmap :
        List.map (fun i => r.stream (r.pos + 1 + i)) (List.range n) =
          List.map ((fun i => r.stream (r.pos + i)) ∘ Nat.succ) (List.range n) := by
      apply List.map_congr_left
      intro i _
      simp only [Function.comp_apply]
      congr 1
      omega
    rw [hmap, Nat.add_assoc, Nat.add_comm 1 n]
    simp

theorem getD_map_range (f : ℕ → ℕ) (n i : ℕ) (h : i < n) :
    ((List.range n).map f).getD i 0 = f i := by
  rw [List.getD_eq_getElem?_getD, List.getElem?_map, List.getElem?_range h]
  rfl

theorem niter_find_with_rng_eq (n : ℕ)
    (generate : ChaCha8Rng → ParityCheckMatrix × ChaCha8Rng)
    (simulate : ParityCheckMatrix → ChaCha8Rng → SimulationResult)
    (rng : CallerRng) :
    NIterationsBestCodeFinderUsingErasure.find_with_rng n generate simulate rng =
      ((((List.range n).map fun i =>
            simulate_one_code_with_rng generate simulate
              (ChaCha8Rng.seed_from_u64 (rng.stream (rng.pos + i)))).foldl
          NIterationsBestCodeFinderUsingErasure.get_best_between
          (none, SimulationResult.worse_result)),
        ⟨rng.stream, rng.pos + n⟩) := by
  unfold NIterationsBestCodeFinderUsingErasure.find_with_rng
    NIterationsBestCodeFinderUsingErasure.ialize_random_seeds_with_rng
  rw [sample_iter_take_eq]
  dsimp only
  congr 1
  congr 1
  apply List.map_congr_left
  intro i hi
  unfold NIterationsBestCodeFinderUsingErasure.get_rng_for
  rw [getD_map_range _ n i (List.mem_range.mp hi)]

theorem nev_find_with_rng_eq (n : ℕ)
    (generate : ChaCha8Rng → ParityCheckMatrix × ChaCha8Rng)
    (simulate : ParityCheckMatrix → ChaCha8Rng → SimulationResult)
    (rng : CallerRng) :
    NEventsBestCodeFinderUsingErasure.find_with_rng n generate simulate rng =
      ((((List.range n).map fun i =>
            simulate_one_code_with_rng generate simulate
              (ChaCha8Rng.seed_from_u64 (rng.stream (rng.pos + i)))).foldl
          NEventsBestCodeFinderUsingErasure.get_best_between
          (none, SimulationResult.worse_result)),
        ⟨rng.stream, rng.pos + n⟩) := by
  unfold NEventsBestCodeFinderUsingErasure.find_with_rng
  rw [sample_iter_take_eq]
  dsimp only
  congr 1
  congr 1
  apply List.map_congr_left
  intro i hi
  rw [getD_map_range _ n i (List.mem_range.mp hi)]

theorem foldl_map_simulate_isSome (n : ℕ) (hn : 0 < n)
    (generate : ChaCha8Rng → ParityCheckMatrix × ChaCha8Rng)
    (simulate : ParityCheckMatrix → ChaCha8Rng → SimulationResult)
    (f : ℕ → ChaCha8Rng) :
    ((((List.range n).map fun i =>
          simulate_one_code_with_rng generate simulate (f i)).foldl
        NIterationsBestCodeFinderUsingErasure.get_best_between
        (none, SimulationResult.worse_result))).1.isSome = true := by
  rcases n with _ | m
  · exact absurd hn (by omega)
  · rw [List.range_succ_eq_map, List.map_cons, List.foldl_cons, get_best_between_left_id]
    apply foldl_get_best_between_isSome
    · exact simulate_one_code_isSome generate simulate (f 0)
    · intro y hy
      rw [List.map_map] at hy
      rcases List.mem_map.mp hy with ⟨i, _, rfl⟩
      exact simulate_one_code_isSome generate simulate _

/-! ### Claim theorems -/

/-- C3: code divergence, evaluated at the failing input `[(0,0),(2,1)]`
(row 1 has no entries). The builder pads the skipped row with the previous
row's length instead of a zero-length range: `row_ranges` comes out as
`[0,1,2,3]`, so the empty row 1 gets the range `[1,2)` of length 1 instead
of `row_ranges[1] = row_ranges[2]`, and row 2's range `[2,3)` reaches past
`column_indices` (which has only the 2 entries `[0,1]`). -/
theorem claim_C3_code_divergence :
    (ParityCheckMatrix.new [(0, 0), (2, 1)]).row_ranges = [0, 1, 2, 3] ∧
      (ParityCheckMatrix.new [(0, 0), (2, 1)]).column_indices = [0, 1] ∧
      (ParityCheckMatrix.new [(0, 0), (2, 1)]).row_ranges.getD 1 0 ≠
        (ParityCheckMatrix.new [(0, 0), (2, 1)]).row_ranges.getD 2 0 := by
  refine ⟨by decide, by decide, by decide⟩

/-- C4: counterexample. Building from the empty position list does not give
a `row_ranges` sequence with exactly one entry: the closing push after the
loop always appends a second entry. -/
theorem claim_C4_counterexample :
    (ParityCheckMatrix.new []).row_ranges.length ≠ 1 := by
  decide

/-- C4 (amended): building from an empty position list yields
`row_ranges = [0, 0]` — two entries, i.e. a one-row matrix whose single row
is empty — and an empty `column_indices`. -/
theorem claim_C4_amended_thm :
    (ParityCheckMatrix.new []).row_ranges = [0, 0] ∧
      (ParityCheckMatrix.new []).column_indices = [] := by
  refine ⟨by decide, by decide⟩

/-- C8: counterexample. For the matrix built from the row-sorted input
`[(0,0),(2,1)]`, both `2` and `3` are valid indices into `row_ranges`
(its length is 4), yet `row_slice 2` panics on the slice
`column_indices[2..3]` instead of returning a slice, because the range end
3 exceeds the length 2 of `column_indices`. -/
theorem claim_C8_counterexample :
    (ParityCheckMatrix.new [(0, 0), (2, 1)]).row_ranges.length = 4 ∧
      (ParityCheckMatrix.new [(0, 0), (2, 1)]).row_slice 2 = Panics.panicked := by
  refine ⟨by decide, by decide⟩

/-- C8 (amended): `row_slice row` returns the slice
`column_indices[row_ranges[row] .. row_ranges[row+1])` when `row` and
`row + 1` are both valid indices into `row_ranges` AND the bounds they hold
are an in-range, well-ordered slice of `column_indices`; and for every
`row` at or beyond the encoded row count it returns the non-fatal
"no such row" value `None` without panicking. -/
theorem claim_C8_amended_thm (m : ParityCheckMatrix) (row row_start row_end : ℕ) :
    (m.row_ranges.get? row = some row_start →
      m.row_ranges.get? (row + 1) = some row_end →
      row_start ≤ row_end → row_end ≤ m.column_indices.length →
      m.row_slice row =
        Panics.ok (some ((m.column_indices.drop row_start).take (row_end - row_start)))) ∧
    (m.row_ranges.length ≤ row + 1 → m.row_slice row = Panics.ok none) := by
  constructor
  · intro h1 h2 h3 h4
    simp only [ParityCheckMatrix.row_slice, h1, h2, rustIndexRange]
    rw [if_pos ⟨h3, h4⟩]
  · intro h
    have h2 : m.row_ranges.get? (row + 1) = none := List.get?_eq_none.mpr h
    cases hr : m.row_ranges.get? row with
    | none => simp only [ParityCheckMatrix.row_slice, hr, h2]
    | some s0 => simp only [ParityCheckMatrix.row_slice, hr, h2]

/-- C8 witness: the amended theorem applied to the matrix of the 3-bit
repetition code at row 0 (a present row) and at row 3 (at/beyond the
encoded row count, which is 2). -/
theorem claim_C8_amended_thm_witness :
    (ParityCheckMatrix.new [(0, 0), (0, 1), (1, 1), (1, 2)]).row_slice 0 =
      Panics.ok (some
        (((ParityCheckMatrix.new [(0, 0), (0, 1), (1, 1), (1, 2)]).column_indices.drop 0).take
          (2 - 0))) ∧
    (ParityCheckMatrix.new [(0, 0), (0, 1), (1, 1), (1, 2)]).row_slice 3 = Panics.ok none := by
  refine
    ⟨(claim_C8_amended_thm (ParityCheckMatrix.new [(0, 0), (0, 1), (1, 1), (1, 2)]) 0 0 2).1
        (by decide) (by decide) (by decide) (by decide),
      (claim_C8_amended_thm (ParityCheckMatrix.new [(0, 0), (0, 1), (1, 1), (1, 2)]) 3 0 0).2
        (by decide)⟩

/-- C9: `dot` is the XOR-accumulation (field addition of `GF2`) of the
vector's values at the slice's column indices, with every index at or
beyond the vector's length silently skipped (the `filterMap` keeps exactly
the in-range lookups); and on the matrix built from
`[(0,0),(0,1),(1,1),(1,2)]` with vector `[0,1,1]`, row 0's slice dots to 1
and row 1's slice dots to 0. -/
theorem claim_C9_thm :
    (∀ (positions : List ℕ) (other : List GF2),
        Slice.dot positions other =
          (positions.filterMap fun p => other.get? p).foldl GF2.add GF2.B0) ∧
    (ParityCheckMatrix.new [(0, 0), (0, 1), (1, 1), (1, 2)]).row_slice 0 =
      Panics.ok (some [0, 1]) ∧
    Slice.dot [0, 1] [GF2.B0, GF2.B1, GF2.B1] = GF2.B1 ∧
    (ParityCheckMatrix.new [(0, 0), (0, 1), (1, 1), (1, 2)]).row_slice 1 =
      Panics.ok (some [1, 2]) ∧
    Slice.dot [1, 2] [GF2.B0, GF2.B1, GF2.B1] = GF2.B0 := by
  refine ⟨fun positions other => dot_foldl_filterMap other positions GF2.B0,
    by decide, by decide, by decide, by decide⟩

/-- C10: `ParityCheckMatrix::new` is total — every input list of
`(row, column)` pairs, sorted or not, produces a matrix (the construction
uses no fallible operation: the only lookup is `last().unwrap_or(&0)`), and
no pair is rejected: the produced `column_indices` is exactly the column of
every input pair in input order, with no ordering hypothesis on the rows. -/
theorem claim_C10_thm (positions : List (ℕ × ℕ)) :
    (ParityCheckMatrix.new positions).column_indices = positions.map Prod.snd := by
  unfold ParityCheckMatrix.new
  dsimp only
  rw [foldl_buildStep_column_indices]
  simp

/-- C1: counterexample. At a tie (results equal, so neither is strictly
better), `get_best_between` keeps the SECOND operand, not the
first-encountered one: with two distinct matrices carrying the same result
5, the combine does not return the first pair. -/
theorem claim_C1_counterexample :
    SimulationResult.is_better_than 5 5 = false ∧
      NIterationsBestCodeFinderUsingErasure.get_best_between
          (some (ParityCheckMatrix.new [(0, 0)]), 5) (some (ParityCheckMatrix.new [(0, 1)]), 5) ≠
        (some (ParityCheckMatrix.new [(0, 0)]), 5) ∧
      NEventsBestCodeFinderUsingErasure.get_best_between
          (some (ParityCheckMatrix.new [(0, 0)]), 5) (some (ParityCheckMatrix.new [(0, 1)]), 5) ≠
        (some (ParityCheckMatrix.new [(0, 0)]), 5) := by
  refine ⟨by decide, by decide, by decide⟩

/-- C1 (amended): in both reduction combines, the operand whose simulation
result is strictly better under `is_better_than` is kept, and when neither
result is strictly better than the other (a tie), the SECOND operand is
kept (the `else` branch returns `second`). -/
theorem claim_C1_amended_thm (first second : CodeAndResult) :
    (SimulationResult.is_better_than first.2 second.2 = true →
      NIterationsBestCodeFinderUsingErasure.get_best_between first second = first ∧
        NEventsBestCodeFinderUsingErasure.get_best_between first second = first) ∧
    (SimulationResult.is_better_than first.2 second.2 = false →
      NIterationsBestCodeFinderUsingErasure.get_best_between first second = second ∧
        NEventsBestCodeFinderUsingErasure.get_best_between first second = second) := by
  constructor
  · intro h
    have hlt : second.2 < first.2 := (is_better_than_true_iff first.2 second.2).mp h
    refine ⟨get_best_between_pos first second hlt, ?_⟩
    rw [nev_get_best_between_eq]
    exact get_best_between_pos first second hlt
  · intro h
    unfold SimulationResult.is_better_than at h
    have hge : ¬ second.2 < first.2 := of_decide_eq_false h
    refine ⟨get_best_between_neg first second hge, ?_⟩
    rw [nev_get_best_between_eq]
    exact get_best_between_neg first second hge

/-- C1 witness: the amended theorem applied to a strictly-better first
operand (result 5 against 3) and to a tie of two distinct matrices with
result 4, where the second operand is kept. -/
theorem claim_C1_amended_thm_witness :
    NIterationsBestCodeFinderUsingErasure.get_best_between
        ((none : Option ParityCheckMatrix), 5) (none, 3) = (none, 5) ∧
      NIterationsBestCodeFinderUsingErasure.get_best_between
          (some (ParityCheckMatrix.new [(0, 0)]), 4) (some (ParityCheckMatrix.new [(0, 1)]), 4) =
        (some (ParityCheckMatrix.new [(0, 1)]), 4) := by
  refine
    ⟨((claim_C1_amended_thm ((none : Option ParityCheckMatrix), 5) (none, 3)).1 (by decide)).1,
      ((claim_C1_amended_thm (some (ParityCheckMatrix.new [(0, 0)]), 4)
            (some (ParityCheckMatrix.new [(0, 1)]), 4)).2 (by decide)).1⟩

/-- C2: counterexample. The combine is NOT commutative and the identity
pair is NOT a two-sided identity: swapping two tied operands with distinct
matrices changes the output, and combining a pair whose result equals the
worst sentinel with the identity pair on the right yields the identity
pair, so a reordering of the evaluation/reduction steps can change the
returned pair. -/
theorem claim_C2_counterexample :
    NIterationsBestCodeFinderUsingErasure.get_best_between
        (some (ParityCheckMatrix.new [(0, 2)]), 7) (some (ParityCheckMatrix.new [(0, 3)]), 7) ≠
      NIterationsBestCodeFinderUsingErasure.get_best_between
        (some (ParityCheckMatrix.new [(0, 3)]), 7) (some (ParityCheckMatrix.new [(0, 2)]), 7) ∧
    NIterationsBestCodeFinderUsingErasure.get_best_between
        (some (ParityCheckMatrix.new [(0, 2)]), SimulationResult.worse_result)
        (none, SimulationResult.worse_result) ≠
      (some (ParityCheckMatrix.new [(0, 2)]), SimulationResult.worse_result) := by
  refine ⟨by decide, by decide⟩

/-- C2 (amended): both combines are associative, and the identity pair
(no matrix, worst result) is a LEFT identity; hence for a fixed seed
assignment the sequential in-index-order reduction is well defined
independently of how the fold is re-associated over contiguous in-order
segments. The combine is not commutative (ties keep the second operand),
so permuting tied operands may change the returned pair. -/
theorem claim_C2_amended_thm :
    (∀ a b c : CodeAndResult,
      NIterationsBestCodeFinderUsingErasure.get_best_between
          (NIterationsBestCodeFinderUsingErasure.get_best_between a b) c =
        NIterationsBestCodeFinderUsingErasure.get_best_between a
          (NIterationsBestCodeFinderUsingErasure.get_best_between b c)) ∧
    (∀ x : CodeAndResult,
      NIterationsBestCodeFinderUsingErasure.get_best_between
          (none, SimulationResult.worse_result) x = x) ∧
    (∀ a b c : CodeAndResult,
      NEventsBestCodeFinderUsingErasure.get_best_between
          (NEventsBestCodeFinderUsingErasure.get_best_between a b) c =
        NEventsBestCodeFinderUsingErasure.get_best_between a
          (NEventsBestCodeFinderUsingErasure.get_best_between b c)) ∧
    (∀ x : CodeAndResult,
      NEventsBestCodeFinderUsingErasure.get_best_between
          (none, SimulationResult.worse_result) x = x) := by
  refine ⟨get_best_between_assoc, get_best_between_left_id, ?_, ?_⟩
  · intro a b c
    rw [nev_get_best_between_eq]
    exact get_best_between_assoc a b c
  · intro x
    rw [nev_get_best_between_eq]
    exact get_best_between_left_id x

/-- C6: with candidate count 0, both searches return exactly the identity
pair (no matrix, worst result) and leave the caller's source untouched, for
EVERY external generator and decoder-simulation — so neither is invoked;
with candidate count at least 1 the returned optional matrix is `Some`. -/
theorem claim_C6_thm :
    (∀ (generate : ChaCha8Rng → ParityCheckMatrix × ChaCha8Rng)
        (simulate : ParityCheckMatrix → ChaCha8Rng → SimulationResult) (rng : CallerRng),
      NIterationsBestCodeFinderUsingErasure.find_with_rng 0 generate simulate rng =
          ((none, SimulationResult.worse_result), rng) ∧
        NEventsBestCodeFinderUsingErasure.find_with_rng 0 generate simulate rng =
          ((none, SimulationResult.worse_result), rng)) ∧
    (∀ (n : ℕ) (generate : ChaCha8Rng → ParityCheckMatrix × ChaCha8Rng)
        (simulate : ParityCheckMatrix → ChaCha8Rng → SimulationResult) (rng : CallerRng),
      0 < n →
        (NIterationsBestCodeFinderUsingErasure.find_with_rng n generate
              simulate rng).1.1.isSome = true ∧
          (NEventsBestCodeFinderUsingErasure.find_with_rng n generate
              simulate rng).1.1.isSome = true) := by
  constructor
  · intro generate simulate rng
    exact ⟨rfl, rfl⟩
  · intro n generate simulate rng hn
    constructor
    · rw [niter_find_with_rng_eq]
      exact foldl_map_simulate_isSome n hn generate simulate _
    · rw [nev_find_with_rng_eq, nev_get_best_between_eq]
      exact foldl_map_simulate_isSome n hn generate simulate _

/-- C6 witness: the theorem's second half applied to candidate count 1 with
a concrete generator, simulation and caller source. -/
theorem claim_C6_thm_witness :
    0 < 1 ∧
      (NIterationsBestCodeFinderUsingErasure.find_with_rng 1 constGenerate
          constSimulate zeroRng).1.1.isSome = true ∧
      (NEventsBestCodeFinderUsingErasure.find_with_rng 1 constGenerate
          constSimulate zeroRng).1.1.isSome = true := by
  refine ⟨by decide,
    (claim_C6_thm.2 1 constGenerate constSimulate zeroRng (by decide)).1,
    (claim_C6_thm.2 1 constGenerate constSimulate zeroRng (by decide)).2⟩

/-- C7: the search draws exactly `n` seeds from the caller's source — the
`i`-th drawn seed is the source's next-in-sequence output at offset `i`,
and the source ends advanced by exactly `n` — and the whole search equals
the reduction over candidates where candidate `i` is evaluated with the
deterministic sub-source `ChaCha8Rng::seed_from_u64` applied to the `i`-th
drawn seed; the seeds thus depend only on the caller's source, never on the
generator or decoder, which are invoked only afterwards on the sub-sources. -/
theorem claim_C7_thm :
    (∀ (n : ℕ) (r : CallerRng),
      sample_iter_take n r =
        (((List.range n).map fun i => r.stream (r.pos + i)), ⟨r.stream, r.pos + n⟩)) ∧
    (∀ (n : ℕ) (generate : ChaCha8Rng → ParityCheckMatrix × ChaCha8Rng)
        (simulate : ParityCheckMatrix → ChaCha8Rng → SimulationResult) (rng : CallerRng),
      NIterationsBestCodeFinderUsingErasure.find_with_rng n generate simulate rng =
        ((((List.range n).map fun i =>
              simulate_one_code_with_rng generate simulate
                (ChaCha8Rng.seed_from_u64 (rng.stream (rng.pos + i)))).foldl
            NIterationsBestCodeFinderUsingErasure.get_best_between
            (none, SimulationResult.worse_result)),
          ⟨rng.stream, rng.pos + n⟩)) := by
  exact ⟨sample_iter_take_eq, niter_find_with_rng_eq⟩

/-- C5: counterexample. The IEEE value NaN does not lie inside [0,1], yet
the erasure-probability setter accepts it: both comparisons `prob < 0.0`
and `prob > 1.0` are false on NaN, so no invalid-argument condition is
raised. -/
theorem claim_C5_counterexample :
    F64.in_unit_interval F64.nan = false ∧
      (BestCodeFinderUsingErasure.from_code_generator.with_erasure_prob F64.nan).isOk = true := by
  refine ⟨rfl, rfl⟩

/-- C5 (amended): the erasure-probability setter fails with the
invalid-argument condition exactly on the NUMERIC values outside [0,1]: it
succeeds on a value iff the value lies inside [0,1] (both endpoints
included) or is NaN, which IEEE comparison lets through. -/
theorem claim_C5_amended_thm (finder : BestCodeFinderUsingErasure) (prob : F64) :
    ((finder.with_erasure_prob prob).isOk = true ↔
      prob.in_unit_interval = true ∨ prob = F64.nan) ∧
    (finder.with_erasure_prob (F64.num 0)).isOk = true ∧
    (finder.with_erasure_prob (F64.num 1)).isOk = true := by
  refine ⟨?_, rfl, rfl⟩
  cases prob with
  | nan => simp [BestCodeFinderUsingErasure.with_erasure_prob, F64.lt, F64.gt, Except.isOk, Except.toBool]
  | num q =>
    simp only [BestCodeFinderUsingErasure.with_erasure_prob, F64.lt, F64.gt,
      F64.in_unit_interval, Bool.or_eq_true, decide_eq_true_eq]
    split_ifs with h
    · simp only [Except.isOk, Except.toBool]
      constructor
      · intro hc
        exact absurd hc (by simp)
      · rintro (⟨h0, h1⟩ | hnan)
        · rcases h with h | h
          · exact absurd h (not_lt.mpr h0)
          · exact absurd h (not_lt.mpr h1)
        · exact absurd hnan (by simp)
    · simp only [Except.isOk, Except.toBool]
      constructor
      · intro _
        left
        push_neg at h
        exact ⟨not_lt.mp (fun hc => (not_lt.mpr h.1.le) hc) , h.2⟩
      · intro _
        trivial
